import Mathlib

/-!
Verification of the Site Sector plugin core (src/site_sector.py and
src/site_sector_dialog.py) against its specification.

The embedding models the pure computational core in exact arithmetic:
Python floats become rationals (ℚ), Python ints become ℤ/ℕ, CSV rows
become association lists from column names to cell strings, and the
transcendental functions `math.cos`/`math.sin` (whose values no claim
depends on) are abstract parameters of the geometry builder.  Digits and
whitespace are modelled as ASCII, matching the data the plugin consumes.
-/

namespace SiteSector

/-- One CSV row as produced by `csv.DictReader`: a finite map from header
name to cell string, modelled as an association list (headers are unique,
`List.lookup` returns the value of the first matching key). -/
abbrev Row := List (String × String)

/-- Python `row.get(key, dflt)`: lookup with a default value. -/
def pyGet (row : Row) (key : String) (dflt : String) : String :=
  (row.lookup key).getD dflt

/-- Python `str.strip()` on a character list: remove leading and trailing
whitespace. -/
def pyStrip (l : List Char) : List Char :=
  ((l.dropWhile Char.isWhitespace).reverse.dropWhile Char.isWhitespace).reverse

/-- Python `s.strip()`. -/
def pyTrim (s : String) : String :=
  String.mk (pyStrip s.data)

/-- Numeric value of a digit run, as Python `int(...)` computes it on a
string of decimal digits (leading zeros allowed). -/
def natOfDigits (l : List Char) : ℕ :=
  l.foldl (fun a c => a * 10 + (c.toNat - '0'.toNat)) 0

/-- Scanner for `re.findall(r'\d+', s)` (site_sector.py line 95): a single
left-to-right pass that collects the maximal runs of ASCII decimal digits.
`acc` holds the digits of the run currently being read, in reverse. -/
def digitRunsAux : List Char → List Char → List (List Char)
  | [], acc => if acc.isEmpty then [] else [acc.reverse]
  | c :: cs, acc =>
    if c.isDigit then
      digitRunsAux cs (c :: acc)
    else if acc.isEmpty then
      digitRunsAux cs []
    else
      acc.reverse :: digitRunsAux cs []

/-- `SiteSector.extract_numeric_freq` (site_sector.py lines 93-96):
`nums = re.findall(r'\d+', str(band_string));
 return max(int(n) for n in nums) if nums else 99999`. -/
def extract_numeric_freq (band_string : String) : ℕ :=
  let nums := (digitRunsAux band_string.data []).map natOfDigits
  match nums with
  | [] => 99999
  | n :: ns => ns.foldl max n

/-- Stable insertion of a band in front of the first already-placed band
with a strictly larger frequency key (helper for the stable sort below). -/
def insertByFreq (a : String) : List String → List String
  | [] => [a]
  | b :: l =>
    if extract_numeric_freq b < extract_numeric_freq a then
      b :: insertByFreq a l
    else
      a :: b :: l

/-- Python `sorted(l, key=self.extract_numeric_freq)` (site_sector.py
line 133): a stable sort on the frequency key, realized as insertion sort
(earlier elements precede later ones with an equal key). -/
def sorted_by_freq (l : List String) : List String :=
  l.foldr insertByFreq []

/-- Collection of distinct band values (site_sector.py lines 126-132):
`if val := row.get(band_col): unique_bands_temp.add(str(val).strip())`.
A missing key or empty string is falsy and skipped; the value is stripped
after the truthiness test.  Python's set iteration order is unspecified;
we model insertion as first-occurrence deduplication, which the frequency
sort makes irrelevant except among equal-key ties. -/
def unique_band_values (band_col : String) (rows : List Row) : List String :=
  (rows.filterMap fun row =>
    match row.lookup band_col with
    | none => none
    | some v => if v = "" then none else some (pyTrim v)).eraseDups

/-- `sorted_bands_list = sorted(list(unique_bands_temp), key=self.extract_numeric_freq)`
(site_sector.py line 133). -/
def build_sorted_bands (band_col : String) (rows : List Row) : List String :=
  sorted_by_freq (unique_band_values band_col rows)

/-- Python `float(s)` on the plain decimal literals the plugin's CSV data
uses: optional surrounding whitespace, optional sign, digits with an
optional fractional part (`"5"`, `"-1.5"`, `".5"`, `"5."`).  Strings
outside this grammar (empty, words, stray characters) yield `none`,
modelling the `ValueError`/`TypeError` that the caller catches.  Python's
exponent/`inf`/`nan` forms do not occur in the data and are treated as
unparsable. -/
def parseDecimal? (s : String) : Option ℚ :=
  let t := pyStrip s.data
  let signed : ℚ × List Char :=
    match t with
    | '-' :: rest => (-1, rest)
    | '+' :: rest => (1, rest)
    | _ => (1, t)
  let sign := signed.1
  let l := signed.2
  let ip := l.takeWhile Char.isDigit
  let rest := l.dropWhile Char.isDigit
  match rest with
  | [] => if ip.isEmpty then none else some (sign * natOfDigits ip)
  | '.' :: frac =>
    if (ip.isEmpty && frac.isEmpty) || !(frac.all Char.isDigit) then
      none
    else
      some (sign * ((natOfDigits ip : ℚ) + (natOfDigits frac : ℚ) / (10 : ℚ) ^ frac.length))
  | _ => none

/-- Python `int(s)` on a string: optional surrounding whitespace, optional
sign, decimal digits; anything else raises (modelled as `none`). -/
def parsePyInt? (s : String) : Option ℤ :=
  let t := pyStrip s.data
  let signed : ℤ × List Char :=
    match t with
    | '-' :: rest => (-1, rest)
    | '+' :: rest => (1, rest)
    | _ => (1, t)
  if signed.2.isEmpty || !(signed.2.all Char.isDigit) then
    none
  else
    some (signed.1 * natOfDigits signed.2)

/-- Python `int(x)` on a number: truncation toward zero. -/
def pyInt (q : ℚ) : ℤ :=
  if 0 ≤ q then ⌊q⌋ else ⌈q⌉

/-- PCI target classification (site_sector.py lines 194-196):
`str(int(pci_val) % inputs['pci_params']['mod_type'])`.  Lean's `%` on ℤ
is `Int.emod`, which agrees with Python `%` for a positive modulus. -/
def pci_target (pci_val : ℚ) (mod_type : ℤ) : String :=
  toString (pyInt pci_val % mod_type)

/-- The configuration object assembled by `SiteSectorDialog.get_inputs`
(site_sector_dialog.py lines 349-385), restricted to the fields the core
pipeline reads.  `is_pci_mode` is `inputs['active_tab'] == 1`; `mod_type`
is `[3, 6][self.combo_mod.currentIndex()]`. -/
structure Config where
  cols_site : String
  cols_lat : String
  cols_lon : String
  cols_azim : String
  cols_radius : String
  cols_beam : String
  cols_band : String
  cols_pci : String
  manual_radius : ℚ
  manual_beam : ℚ
  is_pci_mode : Bool
  mod_type : ℤ

/-- A map point (`QgsPointXY`) in exact coordinates. -/
structure QgsPointXY where
  x : ℚ
  y : ℚ
deriving DecidableEq

/-- Number of iterations of the sweep loop of `create_wedge_geom`
(site_sector.py lines 78-88): `curr_angle = start_angle` followed by
`while curr_angle <= end_angle: ...; curr_angle += 3`.  The loop body runs
once per angle `start + 3k ≤ end`, i.e. `⌊(end − start)/3⌋ + 1` times when
`start ≤ end` and not at all otherwise.  The theorem `sweepAngles_loop`
below proves this closed form satisfies the loop's defining equation. -/
def sweepCount (start_angle end_angle : ℚ) : ℕ :=
  if start_angle ≤ end_angle then (⌊(end_angle - start_angle) / 3⌋).toNat + 1 else 0

/-- The angles emitted by the sweep loop of `create_wedge_geom`, in
emission order. -/
def sweepAngles (start_angle end_angle : ℚ) : List ℚ :=
  (List.range (sweepCount start_angle end_angle)).map fun k : ℕ => start_angle + 3 * (k : ℚ)

/-- `SiteSector.create_wedge_geom` (site_sector.py lines 71-91).  The
composites `cosDeg θ = math.cos(math.radians θ)` and
`sinDeg θ = math.sin(math.radians θ)` are abstract parameters: no claim
depends on their values, only on the ring's structure and swept angles.
Returns the single polygon ring `[origin, sweep points…, origin]`. -/
def create_wedge_geom (cosDeg sinDeg : ℚ → ℚ) (lon lat azim beam radius_m : ℚ) :
    List QgsPointXY :=
  let radius_deg := radius_m / 111320
  (⟨lon, lat⟩ :: (sweepAngles (azim - beam / 2) (azim + beam / 2)).map fun a =>
    ⟨lon + radius_deg * cosDeg (90 - a), lat + radius_deg * sinDeg (90 - a)⟩)
  ++ [⟨lon, lat⟩]

/-- The validated record built from one surviving row (the `row_data`
dictionary of site_sector.py lines 183-201): derived fields plus the
original row kept verbatim for export. -/
structure SectorRecord where
  site : String
  lat : ℚ
  lon : ℚ
  azim : ℚ
  radius : ℚ
  beam : ℚ
  target_val : String
  geom : List QgsPointXY
  attrs : Row

/-- Radius resolution with overlap decrement handling (site_sector.py
lines 166-177).  Manual mapping: the stripped band value is looked up in
the pre-sorted band list (`.index` returns the first position) and the
radius is `max(base − rank·20, 10)` when found, the manual radius
unmodified when not.  Column mapping: `float(row[rad_col])`, where a
missing key or unparsable value fails the row. -/
def resolve_radius (cfg : Config) (sorted_bands_list : List String) (row : Row) :
    Option ℚ :=
  if cfg.cols_radius = "-- Use Manual --" then
    let band_val := pyTrim (pyGet row cfg.cols_band "")
    match sorted_bands_list.findIdx? (· == band_val) with
    | some rank => some (max (cfg.manual_radius - (rank : ℚ) * 20) 10)
    | none => some cfg.manual_radius
  else
    (row.lookup cfg.cols_radius).bind parseDecimal?

/-- The `try` block of the row loop (site_sector.py lines 165-202): radius,
beam, site, lat, lon, azimuth, target classification, then geometry.  Any
`ValueError`/`KeyError`/`TypeError` — a missing column or an unparsable
number — yields `none` (the `except … continue` of lines 204-205). -/
def parse_row (cosDeg sinDeg : ℚ → ℚ) (cfg : Config) (sorted_bands_list : List String)
    (row : Row) : Option SectorRecord := do
  let radius ← resolve_radius cfg sorted_bands_list row
  let beam ←
    if cfg.cols_beam = "-- Use Manual --" then
      some cfg.manual_beam
    else
      (row.lookup cfg.cols_beam).bind parseDecimal?
  let site ← row.lookup cfg.cols_site
  let lat ← (row.lookup cfg.cols_lat).bind parseDecimal?
  let lon ← (row.lookup cfg.cols_lon).bind parseDecimal?
  let azim ← (row.lookup cfg.cols_azim).bind parseDecimal?
  let target ←
    if !cfg.is_pci_mode then
      (row.lookup cfg.cols_band).map pyTrim
    else
      ((row.lookup cfg.cols_pci).bind parseDecimal?).map fun v => pci_target v cfg.mod_type
  some
    { site := site, lat := lat, lon := lon, azim := azim, radius := radius, beam := beam,
      target_val := target,
      geom := create_wedge_geom cosDeg sinDeg lon lat azim beam radius,
      attrs := row }

/-- The band list the run precomputes (site_sector.py lines 124-133):
built only when a band column is mapped, empty otherwise. -/
def run_bands (cfg : Config) (rows : List Row) : List String :=
  if cfg.cols_band ≠ "-- Select Column --" then build_sorted_bands cfg.cols_band rows else []

/-- The row-scan loop (site_sector.py lines 158-205): each row either
contributes a validated record or is skipped. -/
def process_rows (cosDeg sinDeg : ℚ → ℚ) (cfg : Config) (sorted_bands_list : List String)
    (rows : List Row) : List SectorRecord :=
  rows.filterMap (parse_row cosDeg sinDeg cfg sorted_bands_list)

/-- The data-building phase of `SiteSector.run` up to the empty check
(site_sector.py lines 124-211): precompute the band list, scan the rows,
and report `"No valid sectors could be generated from the dataset."` to
the caller when no row survived — returning before any layer is created
or any export file written (those happen only downstream of the `ok`
case, lines 219-310). -/
def run_core (cosDeg sinDeg : ℚ → ℚ) (cfg : Config) (rows : List Row) :
    Except String (List SectorRecord) :=
  let data_list := process_rows cosDeg sinDeg cfg (run_bands cfg rows) rows
  if data_list.isEmpty then
    Except.error "No valid sectors could be generated from the dataset."
  else
    Except.ok data_list

/-- Python `text.replace(needle, repl)` for a single-character needle (the
only form `escape_xml` uses): every occurrence of the character is
replaced by the replacement string. -/
def pyReplaceChar (needle : Char) (repl : List Char) (l : List Char) : List Char :=
  l.flatMap fun c => if c = needle then repl else [c]

/-- `escape_xml` (site_sector.py lines 321-322):
`str(text).replace("&", "&amp;").replace("<", "&lt;").replace(">", "&gt;")`,
applied in that order. -/
def escape_xml (text : String) : String :=
  String.mk
    (pyReplaceChar '>' "&gt;".data
      (pyReplaceChar '<' "&lt;".data
        (pyReplaceChar '&' "&amp;".data text.data)))

/-- The `<name>` element of one sector Placemark in the KML export
(site_sector.py lines 396-400): the target label is prefixed with `Mod_`
in PCI mode (`target_lbl = f"Mod_{row_data['_target_val']}"`), and both
the site value and the label pass through `escape_xml`. -/
def sector_kml_name (is_pci_mode : Bool) (site target_val : String) : String :=
  let target_lbl := if is_pci_mode then "Mod_" ++ target_val else target_val
  escape_xml site ++ "_" ++ escape_xml target_lbl

/-- Uppercase hexadecimal digit, as Python's `X` format code renders it. -/
def hexDigit (n : ℕ) : Char :=
  "0123456789ABCDEF".data.getD n '0'

/-- Python `f"{n:02X}"` for `0 ≤ n < 256`: exactly two uppercase hex
digits. -/
def toHex2 (n : ℕ) : List Char :=
  [hexDigit (n / 16 % 16), hexDigit (n % 16)]

/-- `hex_to_kml_color` (site_sector.py lines 315-319): strip leading
`'#'`s, slice the RR, GG, BB channel pairs, compute the alpha byte as
`int((opacity_pct / 100.0) * 255)` — Python `int()` truncates — and emit
`f"{alpha}{b}{g}{r}".lower()`.  The opacity percent is the integer value
of a 0-100 spin box, so exact rational arithmetic coincides with the
float computation. -/
def hex_to_kml_color (hex_str : String) (opacity_pct : ℕ) : String :=
  let h := hex_str.data.dropWhile (· = '#')
  let r := h.take 2
  let g := (h.drop 2).take 2
  let b := (h.drop 4).take 2
  let alpha := toHex2 (opacity_pct * 255 / 100)
  String.mk ((alpha ++ b ++ g ++ r).map Char.toLower)

/-- Modelled from the spec's amended wording of the fill-color conversion:
given the three source channel digit pairs and the opacity percent, the
output is the 8-hex-digit string in AABBGGRR order whose alpha byte is
`⌊opacity_pct/100 × 255⌋` (truncation, not rounding), all lowercased. -/
def kml_color_spec (r g b : List Char) (opacity_pct : ℕ) : String :=
  String.mk ((toHex2 (opacity_pct * 255 / 100) ++ b ++ g ++ r).map Char.toLower)

/-- Python `l[i]` on a list: nonnegative indices address from the front,
negative indices from the back, and an out-of-range access raises
(modelled as `none`). -/
def pyListGet (l : List String) (i : ℤ) : Option String :=
  if 0 ≤ i then
    l[i.toNat]?
  else if 0 ≤ i + l.length then
    l[(i + l.length).toNat]?
  else
    none

/-- The per-target color choice of PCI mode (site_sector.py lines 272-273):
`idx = int(target); col_hex = inputs['pci_params']['colors'][idx] if idx < 6 else "#888888"`.
A failure of `int()` would be an uncaught exception, modelled as `none`. -/
def pci_color_lookup (colors : List String) (target : String) : Option String :=
  match parsePyInt? target with
  | none => none
  | some idx => if idx < 6 then pyListGet colors idx else some "#888888"

/-- Band-mode demo configuration: manual radius 200 m, manual beam 65°,
the defaults of the dialog's fallback fields. -/
def demoBandCfg : Config :=
  { cols_site := "site", cols_lat := "lat", cols_lon := "lon", cols_azim := "azim",
    cols_radius := "-- Use Manual --", cols_beam := "beam", cols_band := "band",
    cols_pci := "-- Select Column --", manual_radius := 200, manual_beam := 65,
    is_pci_mode := false, mod_type := 3 }

/-- PCI-mode demo configuration with a manual radius of 5 m typed into the
fallback field and no band column mapped. -/
def demoPciCfg : Config :=
  { cols_site := "site", cols_lat := "lat", cols_lon := "lon", cols_azim := "azim",
    cols_radius := "-- Use Manual --", cols_beam := "-- Use Manual --",
    cols_band := "-- Select Column --", cols_pci := "pci", manual_radius := 5,
    manual_beam := 65, is_pci_mode := true, mod_type := 3 }

/-- A well-formed row whose beam column holds the negative value `-6`. -/
def demoRowNegBeam : Row :=
  [("site", "S1"), ("lat", "0"), ("lon", "0"), ("azim", "0"), ("beam", "-6"), ("band", "X")]

/-- A malformed row: the required lat/lon/azim columns are absent. -/
def demoBadRow : Row :=
  [("site", "S1"), ("band", "X")]

/-- End-to-end scenario 1, first row: band LTE1800. -/
def scenRow1 : Row :=
  [("site", "A"), ("lat", "0"), ("lon", "0"), ("azim", "0"), ("beam", "65"), ("band", "LTE1800")]

/-- End-to-end scenario 1, second row: band LTE2100. -/
def scenRow2 : Row :=
  [("site", "A"), ("lat", "0"), ("lon", "0"), ("azim", "120"), ("beam", "65"), ("band", "LTE2100")]

/-- The six PCI colors the dialog always supplies
(site_sector_dialog.py lines 186-197: `for i in range(6)` buttons, with
`Qt.red, Qt.yellow, Qt.blue, Qt.green, Qt.magenta, Qt.cyan` defaults). -/
def demoPciColors : List String :=
  ["#ff0000", "#ffff00", "#0000ff", "#00ff00", "#ff00ff", "#00ffff"]

/-- The closed form `sweepAngles` satisfies the defining equation of the
source's `while curr_angle <= end_angle` loop: if the condition holds the
current angle is emitted and the loop continues from `curr + 3`, otherwise
nothing is emitted.  Together with termination this pins `sweepAngles` to
the loop of site_sector.py lines 80-88. -/
theorem sweepAngles_loop (s e : ℚ) :
    sweepAngles s e = if s ≤ e then s :: sweepAngles (s + 3) e else [] := by
  by_cases h : s ≤ e
  · rw [if_pos h]
    have hstep : sweepCount s e = sweepCount (s + 3) e + 1 := by
      by_cases h3 : s + 3 ≤ e
      · have h1 : (1 : ℤ) ≤ ⌊(e - s) / 3⌋ := by
          rw [Int.le_floor]
          push_cast
          rw [le_div_iff₀ (by norm_num : (0 : ℚ) < 3)]
          linarith
        have he : e - (s + 3) = (e - s) - 3 := by ring
        have he2 : ((e - s) - 3) / 3 = (e - s) / 3 - 1 := by ring
        simp only [sweepCount, if_pos h, if_pos h3, he, he2, Int.floor_sub_one]
        omega
      · have h0 : (0 : ℤ) ≤ ⌊(e - s) / 3⌋ :=
          Int.floor_nonneg.mpr (div_nonneg (by linarith) (by norm_num))
        have hlt : ⌊(e - s) / 3⌋ < 1 := by
          rw [Int.floor_lt]
          push_cast
          rw [div_lt_iff₀ (by norm_num : (0 : ℚ) < 3)]
          linarith
        simp only [sweepCount, if_pos h, if_neg h3]
        omega
    simp only [sweepAngles, hstep, List.range_succ_eq_map, List.map_cons, List.map_map]
    congr 1
    · push_cast
      ring
    · apply List.map_congr_left
      intro a _
      simp only [Function.comp_apply]
      push_cast
      ring
  · rw [if_neg h]
    simp [sweepAngles, sweepCount, if_neg h]

/-- Length of the swept-angle list. -/
theorem sweepAngles_length (s e : ℚ) : (sweepAngles s e).length = sweepCount s e := by
  simp [sweepAngles]

/-- The last angle the loop emits is `s + 3·⌊(e − s)/3⌋`. -/
theorem sweepAngles_getLast (s e : ℚ) (h : s ≤ e) :
    (sweepAngles s e).getLast? = some (s + 3 * ((⌊(e - s) / 3⌋).toNat : ℚ)) := by
  simp only [sweepAngles, sweepCount, if_pos h]
  rw [List.range_succ, List.map_append]
  simp

/-- A scan that has seen no digit and holds an empty run produces no run. -/
theorem digitRunsAux_no_digits (l : List Char) (h : ∀ c ∈ l, ¬ c.isDigit) :
    digitRunsAux l [] = [] := by
  induction l with
  | nil => rfl
  | cons c cs ih =>
    have hc : ¬ c.isDigit := h c (by simp)
    simp only [digitRunsAux, hc, Bool.false_eq_true, if_false, List.isEmpty_nil, if_true]
    exact ih fun x hx => h x (List.mem_cons_of_mem _ hx)

/-- Unfolding equation for `extract_numeric_freq`. -/
theorem extract_numeric_freq_eq (s : String) :
    extract_numeric_freq s =
      match (digitRunsAux s.data []).map natOfDigits with
      | [] => 99999
      | n :: ns => ns.foldl max n := rfl

/-- The seed is a lower bound of a `foldl max`. -/
theorem foldl_max_le (l : List ℕ) (a : ℕ) : a ≤ l.foldl max a := by
  induction l generalizing a with
  | nil => exact le_refl a
  | cons b l ih => exact le_trans (le_max_left a b) (ih (max a b))

/-- Every member of the list is a lower bound of a `foldl max`. -/
theorem foldl_max_ge_mem (l : List ℕ) (a x : ℕ) (hx : x ∈ l) : x ≤ l.foldl max a := by
  induction l generalizing a with
  | nil => cases hx
  | cons b l ih =>
    rcases List.mem_cons.mp hx with rfl | hmem
    · exact le_trans (le_max_right a x) (foldl_max_le l (max a x))
    · exact ih (max a b) hmem

/-- A `foldl max` returns the seed or one of the list's members. -/
theorem foldl_max_mem (l : List ℕ) (a : ℕ) : l.foldl max a ∈ a :: l := by
  induction l generalizing a with
  | nil => simp
  | cons b l ih =>
    rcases List.mem_cons.mp (ih (max a b)) with hEq | hmem
    · rw [List.foldl_cons, hEq]
      rcases max_choice a b with hab | hab
      · rw [hab]
        simp
      · rw [hab]
        simp
    · rw [List.foldl_cons]
      exact List.mem_cons_of_mem _ (List.mem_cons_of_mem _ hmem)

/-- Single-character replacement distributes over list append. -/
theorem pyReplaceChar_append (needle : Char) (repl : List Char) (l1 l2 : List Char) :
    pyReplaceChar needle repl (l1 ++ l2) =
      pyReplaceChar needle repl l1 ++ pyReplaceChar needle repl l2 := by
  simp [pyReplaceChar]

/-- String concatenation is concatenation of the underlying data. -/
theorem string_data_append (s t : String) : (s ++ t).data = s.data ++ t.data := rfl

/-- `escape_xml` distributes over string append. -/
theorem escape_xml_append (s t : String) :
    escape_xml (s ++ t) = escape_xml s ++ escape_xml t := by
  simp only [escape_xml, string_data_append, pyReplaceChar_append]
  rfl

/-- Python `int` round-trips `str` on the small PCI target values. -/
theorem parsePyInt_toString_small (k : ℤ) (h0 : 0 ≤ k) (h6 : k < 6) :
    parsePyInt? (toString k) = some k := by
  interval_cases k <;> decide

/-- Claim C1 (counterexample): at azimuth 0 and beamwidth 4 — not a
multiple of 3 — the end angle is 2 but the final emitted sweep angle is 1,
which does not exceed the end angle.  The loop condition `≤ end angle` is
checked before each emission, so no emitted vertex can ever lie past the
end angle: the claimed overshoot never happens. -/
theorem c1_overshoot_counterexample :
    (sweepAngles (0 - 4 / 2) (0 + 4 / 2)).getLast? = some 1 ∧ ¬ ((0 : ℚ) + 4 / 2 < 1) := by
  constructor
  · rw [sweepAngles_getLast _ _ (by norm_num)]
    have hfl : ⌊(((0 : ℚ) + 4 / 2) - (0 - 4 / 2)) / 3⌋ = 1 := by norm_num
    rw [hfl]
    norm_num
  · norm_num

/-- Claim C1 (amended): for every azimuth and every beamwidth ≥ 0, the
final vertex emitted by the wedge sweep of `create_wedge_geom` never
exceeds the end angle `azimuth + beamwidth/2`; it falls short of the end
angle by less than 3 degrees, and strictly short of it when the beamwidth
is not a multiple of 3 — the loop condition `current ≤ end` is checked
before emitting, so the sweep undershoots rather than overshoots. -/
theorem c1_sweep_final_angle (azim beam : ℚ) (h0 : 0 ≤ beam) :
    ∃ last : ℚ,
      (sweepAngles (azim - beam / 2) (azim + beam / 2)).getLast? = some last ∧
      last ≤ azim + beam / 2 ∧
      azim + beam / 2 - last < 3 ∧
      ((∀ n : ℤ, beam ≠ 3 * n) → last < azim + beam / 2) := by
  have hse : azim - beam / 2 ≤ azim + beam / 2 := by linarith
  have hlast := sweepAngles_getLast (azim - beam / 2) (azim + beam / 2) hse
  have hdif : (azim + beam / 2) - (azim - beam / 2) = beam := by ring
  rw [hdif] at hlast
  have hm0 : (0 : ℤ) ≤ ⌊beam / 3⌋ := Int.floor_nonneg.mpr (div_nonneg h0 (by norm_num))
  have hcast : ((⌊beam / 3⌋.toNat : ℚ)) = ((⌊beam / 3⌋ : ℤ) : ℚ) := by
    exact_mod_cast Int.toNat_of_nonneg hm0
  have hfl_le : ((⌊beam / 3⌋ : ℤ) : ℚ) ≤ beam / 3 := Int.floor_le _
  have hfl_lt : beam / 3 < ((⌊beam / 3⌋ : ℤ) : ℚ) + 1 := Int.lt_floor_add_one _
  refine ⟨azim - beam / 2 + 3 * (⌊beam / 3⌋.toNat : ℚ), hlast, ?_, ?_, ?_⟩
  · rw [hcast]
    linarith
  · rw [hcast]
    linarith
  · intro hne
    rw [hcast]
    have hne' : beam ≠ 3 * ((⌊beam / 3⌋ : ℤ) : ℚ) := fun hEq => hne ⌊beam / 3⌋ hEq
    have h3le : 3 * ((⌊beam / 3⌋ : ℤ) : ℚ) ≤ beam := by linarith
    have h3lt : 3 * ((⌊beam / 3⌋ : ℤ) : ℚ) < beam :=
      lt_of_le_of_ne h3le fun hEq => hne' hEq.symm
    linarith

/-- Witness for C1's amended theorem at azimuth 0, beamwidth 4. -/
theorem c1_sweep_final_angle_witness :
    ∃ last : ℚ,
      (sweepAngles (0 - 4 / 2) (0 + 4 / 2)).getLast? = some last ∧
      last ≤ 0 + 4 / 2 ∧
      0 + 4 / 2 - last < 3 ∧
      ((∀ n : ℤ, (4 : ℚ) ≠ 3 * n) → last < 0 + 4 / 2) :=
  c1_sweep_final_angle 0 4 (by norm_num)

/-- Claim C2 (counterexample): in PCI mode no band column is mapped, so
the sorted band list is empty and the row's band value is never found;
with a manual radius of 5 the resolved radius is 5, below the claimed
floor of 10.  The `max(…, 10)` floor sits only on the band-rank branch of
site_sector.py line 173; the `else` branch of line 175 returns the manual
radius unmodified. -/
theorem c2_radius_floor_counterexample :
    resolve_radius demoPciCfg [] [] = some 5 ∧ (5 : ℚ) < 10 := by
  constructor
  · decide
  · norm_num

/-- Claim C2 (amended): with a manual radius mapping, the resolved radius
is floored at 10 only when the row's band value occurs in the sorted band
list; when the band value is absent the manual radius is returned
unmodified (and may be below 10).  With a real radius column the cell is
parsed directly as a float and no floor is applied. -/
theorem c2_radius_floor_asymmetry (cfg : Config) (bands : List String) (row : Row) :
    (cfg.cols_radius = "-- Use Manual --" →
      (∀ r : ℕ, bands.findIdx? (· == pyTrim (pyGet row cfg.cols_band "")) = some r →
        ∃ rad, resolve_radius cfg bands row = some rad ∧ 10 ≤ rad) ∧
      (bands.findIdx? (· == pyTrim (pyGet row cfg.cols_band "")) = none →
        resolve_radius cfg bands row = some cfg.manual_radius)) ∧
    (cfg.cols_radius ≠ "-- Use Manual --" →
      resolve_radius cfg bands row = (row.lookup cfg.cols_radius).bind parseDecimal?) := by
  constructor
  · intro hman
    constructor
    · intro r hidx
      refine ⟨max (cfg.manual_radius - (r : ℚ) * 20) 10, ?_, le_max_right _ _⟩
      simp [resolve_radius, hman, hidx]
    · intro hnone
      simp [resolve_radius, hman, hnone]
  · intro hcol
    simp [resolve_radius, hcol]

/-- Witness for C2's amended theorem: band LTE1800 found at rank 0 with
manual radius 200 resolves to a radius of at least 10. -/
theorem c2_radius_floor_asymmetry_witness :
    ∃ rad, resolve_radius demoBandCfg ["LTE1800"] scenRow1 = some rad ∧ 10 ≤ rad :=
  ((c2_radius_floor_asymmetry demoBandCfg ["LTE1800"] scenRow1).1 rfl).1 0 (by decide)

/-- Claim C3 (counterexample): in PCI mode the per-sector name element is
`"S1_Mod_2"`, not the claimed `"{site}_{target}" = "S1_2"` — the target
label is prefixed with `Mod_` before being joined to the site id. -/
theorem c3_kml_name_counterexample :
    sector_kml_name true "S1" "2" = "S1_Mod_2" ∧ sector_kml_name true "S1" "2" ≠ "S1_2" := by
  constructor
  · decide
  · decide

/-- Claim C3 (amended): the per-sector name element is the XML-escaped
site id, an underscore, and the XML-escaped target label — where the label
is the raw target in band mode but `Mod_{target}` in PCI mode. -/
theorem c3_kml_name_format (is_pci : Bool) (site target_val : String) :
    sector_kml_name is_pci site target_val =
      escape_xml site ++ "_" ++
        (if is_pci then "Mod_" ++ escape_xml target_val else escape_xml target_val) := by
  cases is_pci with
  | false => rfl
  | true =>
    show escape_xml site ++ "_" ++ escape_xml ("Mod_" ++ target_val) =
      escape_xml site ++ "_" ++ ("Mod_" ++ escape_xml target_val)
    rw [escape_xml_append]
    have hM : escape_xml "Mod_" = "Mod_" := by decide
    rw [hM]

/-- Claim C4 (counterexample): at 50% opacity the code's alpha byte is
`int(0.5 × 255) = 127 = 0x7f` (truncation), while the claimed
`round(0.5 × 255) = 128 = 0x80`; for `#FF0000` the code emits
`"7f0000ff"`, not the claimed `"800000ff"`. -/
theorem c4_kml_alpha_counterexample :
    hex_to_kml_color "#FF0000" 50 = "7f0000ff" ∧
    round ((50 : ℚ) / 100 * 255) = (128 : ℤ) ∧
    String.mk ((toHex2 128 ++ "00".data ++ "00".data ++ "FF".data).map Char.toLower) =
      "800000ff" ∧
    ("7f0000ff" : String) ≠ "800000ff" := by
  refine ⟨by decide, by norm_num [round_eq], by decide, by decide⟩

/-- Claim C4 (amended): for every `#RRGGBB` input and opacity percent, the
emitted fill color is the lowercased 8-hex-digit string in AABBGGRR order
whose alpha byte is the truncation `⌊p/100 × 255⌋` — not the rounding —
of the scaled opacity, with the blue, green, red source channel pairs in
reversed order. -/
theorem c4_kml_color_format (r g b : List Char) (p : ℕ)
    (hr : r.length = 2) (hg : g.length = 2) (hb : b.length = 2)
    (hhash : ∀ c ∈ r, c ≠ '#') :
    hex_to_kml_color (String.mk ('#' :: (r ++ g ++ b))) p = kml_color_spec r g b p := by
  obtain ⟨r1, r2, rfl⟩ := List.length_eq_two.mp hr
  obtain ⟨g1, g2, rfl⟩ := List.length_eq_two.mp hg
  obtain ⟨b1, b2, rfl⟩ := List.length_eq_two.mp hb
  have h1 : ¬ (r1 = '#') := hhash r1 (by simp)
  simp +decide [hex_to_kml_color, kml_color_spec, List.dropWhile, h1]

/-- Witness for C4's amended theorem at `#FF0000`, opacity 50%. -/
theorem c4_kml_color_format_witness :
    hex_to_kml_color (String.mk ('#' :: (['F', 'F'] ++ ['0', '0'] ++ ['0', '0']))) 50 =
      kml_color_spec ['F', 'F'] ['0', '0'] ['0', '0'] 50 :=
  c4_kml_color_format ['F', 'F'] ['0', '0'] ['0', '0'] 50 rfl rfl rfl (by decide)

/-- Claim C5 (counterexample): the row with beam column value `-6` parses
successfully — `float("-6")` succeeds and no validation rejects a negative
beamwidth — yet its wedge ring has only 2 vertices (the sweep loop never
runs, leaving `[origin, origin]`), violating the claimed ≥ 3 bound. -/
theorem c5_ring_counterexample :
    ((parse_row (fun _ => 0) (fun _ => 0) demoBandCfg ["X"] demoRowNegBeam).map
        fun r => r.geom.length) = some 2 := by
  have hp0 : parseDecimal? "0" = some 0 := by
    have h : parseDecimal? "0" = some ((1 : ℚ) * ((0 : ℕ) : ℚ)) := rfl
    rw [h]
    norm_num
  have hp6 : parseDecimal? "-6" = some (-6) := by
    have h : parseDecimal? "-6" = some ((-1 : ℚ) * ((6 : ℕ) : ℚ)) := rfl
    rw [h]
    norm_num
  have hband : pyTrim (pyGet demoRowNegBeam "band" "") = "X" := by decide
  have hrr : resolve_radius demoBandCfg ["X"] demoRowNegBeam = some 200 := by
    simp +decide [resolve_radius, demoBandCfg, hband]
  have hx : pyTrim "X" = "X" := by decide
  have hc1 : demoBandCfg.cols_beam = "beam" := rfl
  have hc2 : demoBandCfg.cols_site = "site" := rfl
  have hc3 : demoBandCfg.cols_lat = "lat" := rfl
  have hc4 : demoBandCfg.cols_lon = "lon" := rfl
  have hc5 : demoBandCfg.cols_azim = "azim" := rfl
  have hc6 : demoBandCfg.cols_band = "band" := rfl
  have hc7 : demoBandCfg.is_pci_mode = false := rfl
  have hl1 : List.lookup "beam" demoRowNegBeam = some "-6" := by decide
  have hl2 : List.lookup "site" demoRowNegBeam = some "S1" := by decide
  have hl3 : List.lookup "lat" demoRowNegBeam = some "0" := by decide
  have hl4 : List.lookup "lon" demoRowNegBeam = some "0" := by decide
  have hl5 : List.lookup "azim" demoRowNegBeam = some "0" := by decide
  have hl6 : List.lookup "band" demoRowNegBeam = some "X" := by decide
  simp [parse_row, hrr, hc1, hc2, hc3, hc4, hc5, hc6, hc7, hl1, hl2, hl3, hl4, hl5, hl6,
    hp0, hp6, hx]
  norm_num [create_wedge_geom, sweepAngles, sweepCount]

/-- Claim C5 (amended): for every nonnegative beamwidth the polygon ring
of `create_wedge_geom` has at least 3 vertices, and for beamwidth 0 it is
exactly `[origin, one arc point, origin]`; a negative parsed beamwidth —
which survives row validation — produces a 2-vertex ring instead. -/
theorem c5_ring_vertices (cosDeg sinDeg : ℚ → ℚ) (lon lat azim beam radius_m : ℚ)
    (hb : 0 ≤ beam) :
    3 ≤ (create_wedge_geom cosDeg sinDeg lon lat azim beam radius_m).length ∧
    (beam = 0 → ∃ p, create_wedge_geom cosDeg sinDeg lon lat azim beam radius_m =
      [⟨lon, lat⟩, p, ⟨lon, lat⟩]) := by
  have hse : azim - beam / 2 ≤ azim + beam / 2 := by linarith
  constructor
  · have hlen : (create_wedge_geom cosDeg sinDeg lon lat azim beam radius_m).length =
        sweepCount (azim - beam / 2) (azim + beam / 2) + 2 := by
      simp [create_wedge_geom, sweepAngles_length]
    rw [hlen]
    have hone : 1 ≤ sweepCount (azim - beam / 2) (azim + beam / 2) := by
      simp only [sweepCount, if_pos hse]
      omega
    omega
  · intro h0
    subst h0
    have hc : sweepCount azim azim = 1 := by
      simp only [sweepCount]
      rw [if_pos le_rfl]
      simp
    have hr1 : List.range 1 = [0] := by decide
    have hsw : sweepAngles azim azim = [azim] := by
      simp [sweepAngles, hc, hr1]
    refine ⟨⟨lon + radius_m / 111320 * cosDeg (90 - azim),
             lat + radius_m / 111320 * sinDeg (90 - azim)⟩, ?_⟩
    simp [create_wedge_geom, hsw]

/-- Witness for C5's amended theorem at beamwidth 0. -/
theorem c5_ring_vertices_witness :
    3 ≤ (create_wedge_geom (fun _ => 0) (fun _ => 0) 0 0 0 0 100).length ∧
    ((0 : ℚ) = 0 → ∃ p, create_wedge_geom (fun _ => 0) (fun _ => 0) 0 0 0 0 100 =
      [⟨0, 0⟩, p, ⟨0, 0⟩]) :=
  c5_ring_vertices (fun _ => 0) (fun _ => 0) 0 0 0 0 100 le_rfl

/-- Claim C6 (confirmed): in PCI mode, for every parsed PCI value —
negative and fractional included — and modulo divisor 3 or 6, the target
classification is the decimal string of `int(v) mod m`, an integer in
`[0, m−1]`: Python `%` with a positive modulus (here `Int.emod`) is always
nonnegative and below the modulus. -/
theorem c6_pci_target_range (v : ℚ) (m : ℤ) (hm : m = 3 ∨ m = 6) :
    ∃ k : ℤ, pci_target v m = toString k ∧ 0 ≤ k ∧ k < m := by
  have hm0 : 0 < m := by rcases hm with rfl | rfl <;> norm_num
  exact ⟨pyInt v % m, rfl, Int.emod_nonneg _ (by omega), Int.emod_lt_of_pos _ hm0⟩

/-- Witness for C6 at the fractional negative PCI value −15/2 with
modulus 3. -/
theorem c6_pci_target_range_witness :
    ∃ k : ℤ, pci_target (-15 / 2 : ℚ) 3 = toString k ∧ 0 ≤ k ∧ k < 3 :=
  c6_pci_target_range (-15 / 2) 3 (Or.inl rfl)

/-- Claim C7 (confirmed): with a manual radius mapping, a band found at
0-based rank `r` of the frequency-sorted band list resolves to
`max(manual − 20·r, 10)` and an absent band resolves to the manual radius
unmodified; in the two-row scenario with bands LTE1800 and LTE2100 and
manual radius 200, the sorted list is `[LTE1800, LTE2100]` and the rows
resolve to radii 200 and 180. -/
theorem c7_band_rank_radius (cfg : Config) (bands : List String) (row : Row) (r : ℕ)
    (hman : cfg.cols_radius = "-- Use Manual --") :
    (bands.findIdx? (· == pyTrim (pyGet row cfg.cols_band "")) = some r →
      resolve_radius cfg bands row = some (max (cfg.manual_radius - (r : ℚ) * 20) 10)) ∧
    (bands.findIdx? (· == pyTrim (pyGet row cfg.cols_band "")) = none →
      resolve_radius cfg bands row = some cfg.manual_radius) ∧
    build_sorted_bands "band" [scenRow1, scenRow2] = ["LTE1800", "LTE2100"] ∧
    resolve_radius demoBandCfg (build_sorted_bands "band" [scenRow1, scenRow2]) scenRow1 =
      some 200 ∧
    resolve_radius demoBandCfg (build_sorted_bands "band" [scenRow1, scenRow2]) scenRow2 =
      some 180 := by
  have hsb : build_sorted_bands "band" [scenRow1, scenRow2] = ["LTE1800", "LTE2100"] := by
    decide
  refine ⟨?_, ?_, hsb, ?_, ?_⟩
  · intro hidx
    simp [resolve_radius, hman, hidx]
  · intro hnone
    simp [resolve_radius, hman, hnone]
  · rw [hsb]
    have hband : pyTrim (pyGet scenRow1 "band" "") = "LTE1800" := by decide
    simp +decide [resolve_radius, demoBandCfg, hband]
  · rw [hsb]
    have hband : pyTrim (pyGet scenRow2 "band" "") = "LTE2100" := by decide
    simp +decide [resolve_radius, demoBandCfg, hband]
    norm_num [max_def]

/-- Witness for C7 at the second scenario row, found at rank 1. -/
theorem c7_band_rank_radius_witness :
    ((["LTE1800", "LTE2100"] : List String).findIdx?
        (· == pyTrim (pyGet scenRow2 demoBandCfg.cols_band "")) = some 1 →
      resolve_radius demoBandCfg ["LTE1800", "LTE2100"] scenRow2 =
        some (max (demoBandCfg.manual_radius - ((1 : ℕ) : ℚ) * 20) 10)) ∧
    ((["LTE1800", "LTE2100"] : List String).findIdx?
        (· == pyTrim (pyGet scenRow2 demoBandCfg.cols_band "")) = none →
      resolve_radius demoBandCfg ["LTE1800", "LTE2100"] scenRow2 =
        some demoBandCfg.manual_radius) ∧
    build_sorted_bands "band" [scenRow1, scenRow2] = ["LTE1800", "LTE2100"] ∧
    resolve_radius demoBandCfg (build_sorted_bands "band" [scenRow1, scenRow2]) scenRow1 =
      some 200 ∧
    resolve_radius demoBandCfg (build_sorted_bands "band" [scenRow1, scenRow2]) scenRow2 =
      some 180 :=
  c7_band_rank_radius demoBandCfg ["LTE1800", "LTE2100"] scenRow2 1 rfl

/-- Claim C8 (confirmed): a row that fails to parse — missing column,
non-numeric value, or type mismatch — is skipped without affecting the
records produced from the remaining rows, and a run in which every row is
skipped reports the "no valid sectors" error to the caller instead of
producing a record list (the layer and any export file are created only
downstream of the `ok` case). -/
theorem c8_row_skip_no_data (cosDeg sinDeg : ℚ → ℚ) (cfg : Config) (bands : List String)
    (pre post rows : List Row) (bad : Row)
    (hbad : parse_row cosDeg sinDeg cfg bands bad = none)
    (hall : ∀ row ∈ rows, parse_row cosDeg sinDeg cfg (run_bands cfg rows) row = none) :
    process_rows cosDeg sinDeg cfg bands (pre ++ bad :: post) =
      process_rows cosDeg sinDeg cfg bands (pre ++ post) ∧
    run_core cosDeg sinDeg cfg rows =
      Except.error "No valid sectors could be generated from the dataset." := by
  constructor
  · simp [process_rows, List.filterMap_append, List.filterMap_cons, hbad]
  · have hempty : process_rows cosDeg sinDeg cfg (run_bands cfg rows) rows = [] := by
      simp only [process_rows]
      rw [List.filterMap_eq_nil_iff]
      exact hall
    simp [run_core, hempty]

/-- Witness for C8: a row missing its latitude/longitude/azimuth columns
is skipped, and a dataset consisting only of that row yields the error. -/
theorem c8_row_skip_no_data_witness :
    process_rows (fun _ => 0) (fun _ => 0) demoBandCfg ["X"] ([] ++ demoBadRow :: []) =
      process_rows (fun _ => 0) (fun _ => 0) demoBandCfg ["X"] ([] ++ []) ∧
    run_core (fun _ => 0) (fun _ => 0) demoBandCfg [demoBadRow] =
      Except.error "No valid sectors could be generated from the dataset." :=
  c8_row_skip_no_data (fun _ => 0) (fun _ => 0) demoBandCfg ["X"] [] [] [demoBadRow]
    demoBadRow rfl (by
      intro row hrow
      rw [List.mem_singleton] at hrow
      subst hrow
      rfl)

/-- Claim C9 (confirmed): the frequency key extractor is total, returns
the maximum value among the maximal digit runs of the label, and returns
the sentinel 99999 on a label with no digit at all — so every string of
only non-digit characters maps to exactly 99999. -/
theorem c9_extract_freq_spec (s : String) :
    ((∀ c ∈ s.data, ¬ c.isDigit) → extract_numeric_freq s = 99999) ∧
    (∀ n ∈ (digitRunsAux s.data []).map natOfDigits, n ≤ extract_numeric_freq s) ∧
    ((digitRunsAux s.data []).map natOfDigits ≠ [] →
      extract_numeric_freq s ∈ (digitRunsAux s.data []).map natOfDigits) := by
  refine ⟨?_, ?_, ?_⟩
  · intro h
    rw [extract_numeric_freq_eq, digitRunsAux_no_digits s.data h]
    rfl
  · intro n hn
    rw [extract_numeric_freq_eq]
    cases hml : (digitRunsAux s.data []).map natOfDigits with
    | nil =>
      rw [hml] at hn
      cases hn
    | cons a l =>
      rw [hml] at hn
      rcases List.mem_cons.mp hn with rfl | hmem
      · exact foldl_max_le l n
      · exact foldl_max_ge_mem l a n hmem
  · intro hne
    rw [extract_numeric_freq_eq]
    cases hml : (digitRunsAux s.data []).map natOfDigits with
    | nil => exact absurd hml hne
    | cons a l => exact foldl_max_mem l a

/-- Witness for C9 at a digit-free band label. -/
theorem c9_extract_freq_spec_witness : extract_numeric_freq "NRBandX" = 99999 :=
  (c9_extract_freq_spec "NRBandX").1 (by decide)

/-- Claim C10 (confirmed): in PCI mode the color index parsed back from
the target string is exactly the modulo value, a natural number below 6;
with the 6-entry color list the dialog always supplies, the list access is
in bounds and the gray `#888888` fallback branch is unreachable. -/
theorem c10_pci_color_safe (v : ℚ) (m : ℤ) (colors : List String)
    (hm : m = 3 ∨ m = 6) (hc : colors.length = 6) :
    ∃ i : ℕ, parsePyInt? (pci_target v m) = some (i : ℤ) ∧ i < 6 ∧
      pci_color_lookup colors (pci_target v m) = colors[i]? ∧
      (colors[i]?).isSome = true := by
  have hm0 : 0 < m := by rcases hm with rfl | rfl <;> norm_num
  have hm6 : m ≤ 6 := by rcases hm with rfl | rfl <;> norm_num
  have hk0 : 0 ≤ pyInt v % m := Int.emod_nonneg _ (by omega)
  have hk6 : pyInt v % m < 6 := lt_of_lt_of_le (Int.emod_lt_of_pos _ hm0) hm6
  have hparse : parsePyInt? (pci_target v m) = some (pyInt v % m) :=
    parsePyInt_toString_small _ hk0 hk6
  refine ⟨(pyInt v % m).toNat, ?_, by omega, ?_, ?_⟩
  · rw [hparse, Int.toNat_of_nonneg hk0]
  · simp only [pci_color_lookup, hparse]
    rw [if_pos hk6]
    simp only [pyListGet]
    rw [if_pos hk0]
  · have hlt : (pyInt v % m).toNat < colors.length := by omega
    rw [List.getElem?_eq_getElem hlt]
    rfl

/-- Witness for C10 at PCI value 7, modulus 3, with the dialog's default
six colors. -/
theorem c10_pci_color_safe_witness :
    ∃ i : ℕ, parsePyInt? (pci_target 7 3) = some (i : ℤ) ∧ i < 6 ∧
      pci_color_lookup demoPciColors (pci_target 7 3) = demoPciColors[i]? ∧
      (demoPciColors[i]?).isSome = true :=
  c10_pci_color_safe 7 3 demoPciColors (Or.inl rfl) rfl

end SiteSector
